import Mathlib

/-!
Verification of the retry/backoff policy component (`src/retry_conf.rs` of the
`fruently` crate).

The component is a pure configuration value `RetryConf` with three fields
(`max`, `multiplier`, `store_file_path`), a consuming builder API
(`max`, `multiplier`, `store_file`) and three query operations
(`need_to_store`, `store_path`, `build`).

Shallow embedding choices:
* Rust `u64` field `max` is modelled as `Nat` (the struct performs no
  arithmetic on it, so no wrap-around can occur);
* Rust `f64` field `multiplier` is modelled as `ℝ` (the struct only stores
  and returns it, never computes with it);
* Rust `PathBuf` is modelled as `String`;
* the Rust builder methods `max` and `multiplier` collide with the structure
  field names in Lean, so they are embedded as `set_max` / `set_multiplier`.
-/

/-- The `RetryConf` struct of `src/retry_conf.rs`: fields `max : u64`,
`multiplier : f64`, `store_file_path : Option<PathBuf>`. -/
@[ext]
structure RetryConf where
  max : Nat
  multiplier : ℝ
  store_file_path : Option String

/-- `impl Default for RetryConf`: `max = 10`, `multiplier = 5_f64`,
`store_file_path = None`. -/
def RetryConf.default : RetryConf :=
  { max := 10, multiplier := 5, store_file_path := none }

/-- `RetryConf::new`, which returns `Default::default()`. -/
def RetryConf.new : RetryConf :=
  RetryConf.default

/-- `RetryConf::max(mut self, max: u64)`: sets the `max` field, returns the
updated configuration. Embedded as `set_max` because the field is named
`max` in Lean. -/
def RetryConf.set_max (c : RetryConf) (m : Nat) : RetryConf :=
  { c with max := m }

/-- `RetryConf::multiplier(mut self, multiplier: f64)`: sets the `multiplier`
field, returns the updated configuration. Embedded as `set_multiplier`. -/
def RetryConf.set_multiplier (c : RetryConf) (x : ℝ) : RetryConf :=
  { c with multiplier := x }

/-- `RetryConf::store_file(mut self, path: PathBuf)`: sets
`store_file_path = Some(path)`, returns the updated configuration. -/
def RetryConf.store_file (c : RetryConf) (p : String) : RetryConf :=
  { c with store_file_path := some p }

/-- `RetryConf::need_to_store(self) -> bool`: `self.store_file_path.is_some()`. -/
def RetryConf.need_to_store (c : RetryConf) : Bool :=
  c.store_file_path.isSome

/-- `RetryConf::store_path(self) -> Option<PathBuf>`: returns
`self.store_file_path`. -/
def RetryConf.store_path (c : RetryConf) : Option String :=
  c.store_file_path

/-- `RetryConf::build(self) -> (u64, f64)`: returns `(self.max, self.multiplier)`. -/
def RetryConf.build (c : RetryConf) : Nat × ℝ :=
  (c.max, c.multiplier)

/-- The path literal used by the spec's round-trip example. -/
def tmpFruentlyLog : String :=
  "/tmp/fruently.log"

/-- One call of the consuming builder API of `RetryConf`. -/
inductive BuilderCall where
  | max (m : Nat)
  | multiplier (x : ℝ)
  | storeFile (p : String)

/-- Apply one builder call to a configuration, exactly as the corresponding
Rust method does. -/
def applyCall (c : RetryConf) : BuilderCall → RetryConf
  | BuilderCall.max m => c.set_max m
  | BuilderCall.multiplier x => c.set_multiplier x
  | BuilderCall.storeFile p => c.store_file p

/-- Apply a finite sequence of builder calls, left to right (the order the
chained Rust calls execute in). -/
def applyCalls : RetryConf → List BuilderCall → RetryConf
  | c, [] => c
  | c, a :: t => applyCalls (applyCall c a) t

/-- The value a single builder call writes into the `max` field, if any. -/
def callMax : BuilderCall → Option Nat
  | BuilderCall.max m => some m
  | _ => none

/-- The value a single builder call writes into the `multiplier` field, if any. -/
def callMultiplier : BuilderCall → Option ℝ
  | BuilderCall.multiplier x => some x
  | _ => none

/-- The value a single builder call writes into the `store_file_path` field,
if any. -/
def callStore : BuilderCall → Option String
  | BuilderCall.storeFile p => some p
  | _ => none

/-- The last value set for the `max` field by a call sequence, if any. -/
def lastMax : List BuilderCall → Option Nat
  | [] => none
  | a :: t => (lastMax t).or (callMax a)

/-- The last value set for the `multiplier` field by a call sequence, if any. -/
def lastMultiplier : List BuilderCall → Option ℝ
  | [] => none
  | a :: t => (lastMultiplier t).or (callMultiplier a)

/-- The last value set for the `store_file_path` field by a call sequence,
if any. -/
def lastStore : List BuilderCall → Option String
  | [] => none
  | a :: t => (lastStore t).or (callStore a)

/-- Which of the three fields a builder call targets (0 = max,
1 = multiplier, 2 = store_file_path). -/
def fieldOf : BuilderCall → Nat
  | BuilderCall.max _ => 0
  | BuilderCall.multiplier _ => 1
  | BuilderCall.storeFile _ => 2

lemma applyCalls_max (l : List BuilderCall) :
    ∀ c : RetryConf, (applyCalls c l).max = (lastMax l).getD c.max := by
  induction l with
  | nil => intro c; rfl
  | cons a t ih =>
    intro c
    show (applyCalls (applyCall c a) t).max = ((lastMax t).or (callMax a)).getD c.max
    rw [ih]
    cases h : lastMax t with
    | some m => simp [Option.or]
    | none =>
      cases a <;> simp [Option.or, callMax, applyCall, RetryConf.set_max,
        RetryConf.set_multiplier, RetryConf.store_file]

lemma applyCalls_multiplier (l : List BuilderCall) :
    ∀ c : RetryConf, (applyCalls c l).multiplier = (lastMultiplier l).getD c.multiplier := by
  induction l with
  | nil => intro c; rfl
  | cons a t ih =>
    intro c
    show (applyCalls (applyCall c a) t).multiplier
        = ((lastMultiplier t).or (callMultiplier a)).getD c.multiplier
    rw [ih]
    cases h : lastMultiplier t with
    | some x => simp [Option.or]
    | none =>
      cases a <;> simp [Option.or, callMultiplier, applyCall, RetryConf.set_max,
        RetryConf.set_multiplier, RetryConf.store_file]

lemma applyCalls_store (l : List BuilderCall) :
    ∀ c : RetryConf,
      (applyCalls c l).store_file_path = (lastStore l).or c.store_file_path := by
  induction l with
  | nil => intro c; simp [applyCalls, lastStore, Option.or]
  | cons a t ih =>
    intro c
    show (applyCalls (applyCall c a) t).store_file_path
        = ((lastStore t).or (callStore a)).or c.store_file_path
    rw [ih]
    cases h : lastStore t with
    | some p => simp [Option.or]
    | none =>
      cases a <;> simp [Option.or, callStore, applyCall, RetryConf.set_max,
        RetryConf.set_multiplier, RetryConf.store_file]

/-- Claim C4: a default-constructed `RetryConf` (via `new()` / `Default`) has
`max = 10`, `multiplier = 5.0`, no store path set, `need_to_store() = false`
and `store_path() = None`. -/
theorem default_retry_conf :
    RetryConf.new = RetryConf.default ∧
    RetryConf.new.max = 10 ∧
    RetryConf.new.multiplier = 5 ∧
    RetryConf.new.store_file_path = none ∧
    RetryConf.new.need_to_store = false ∧
    RetryConf.new.store_path = none :=
  ⟨rfl, rfl, rfl, rfl, rfl, rfl⟩

/-- Claim C7: for every configuration and every path `p` (in particular
`/tmp/fruently.log`), calling `store_file(p)` and then `store_path()` returns
exactly `Some(p)`, and `need_to_store()` on that configuration is true. -/
theorem store_file_round_trip (c : RetryConf) (p : String) :
    (c.store_file p).store_path = some p ∧
    (c.store_file p).need_to_store = true ∧
    (RetryConf.new.store_file tmpFruentlyLog).store_path = some tmpFruentlyLog :=
  ⟨rfl, rfl, rfl⟩

/-- Claim C8: `build()` returns exactly the pair `(max, multiplier)` currently stored
in the configuration (`max : u64` modelled as `Nat`, `multiplier : f64`
modelled as `ℝ`). -/
theorem build_returns_pair (c : RetryConf) :
    c.build = (c.max, c.multiplier) :=
  rfl

/-- Claim C9: every operation of `RetryConf` is total: construction, every builder
call (including `max = 0`, a negative multiplier, and an arbitrary path
string) and every query produces a value for every input; no operation can
fail. -/
theorem operations_total (c : RetryConf) (m : Nat) (x : ℝ) (p : String) :
    ∃ (c₁ c₂ c₃ c₄ : RetryConf) (b : Bool) (o : Option String) (pr : Nat × ℝ),
      RetryConf.new = c₁ ∧
      c.set_max m = c₂ ∧
      c.set_multiplier x = c₃ ∧
      c.store_file p = c₄ ∧
      c.need_to_store = b ∧
      c.store_path = o ∧
      c.build = pr ∧
      (c.set_max 0).max = 0 ∧
      (c.set_multiplier (-1)).multiplier = -1 :=
  ⟨_, _, _, _, _, _, _, rfl, rfl, rfl, rfl, rfl, rfl, rfl, rfl, rfl⟩

/-- Claim C5: for any finite sequence of builder calls starting from the default,
the resulting configuration holds, for each field, the last value set for
that field (fields never set keep their defaults `10`, `5.0`, `None`), and
two adjacent builder calls targeting different fields commute (no cross-field
interaction, so reordering across fields yields the same configuration). -/
theorem builder_last_write_wins (l : List BuilderCall) (a b : BuilderCall)
    (c : RetryConf) (hab : fieldOf a ≠ fieldOf b) :
    applyCalls RetryConf.new l =
      { max := (lastMax l).getD 10,
        multiplier := (lastMultiplier l).getD 5,
        store_file_path := (lastStore l).or none } ∧
    applyCall (applyCall c a) b = applyCall (applyCall c b) a := by
  constructor
  · exact RetryConf.ext (applyCalls_max l RetryConf.new)
      (applyCalls_multiplier l RetryConf.new) (applyCalls_store l RetryConf.new)
  · cases a <;> cases b <;> first
      | rfl
      | exact absurd rfl hab

/-- Witness for C5 at a concrete call sequence and a concrete pair of calls
targeting different fields. -/
theorem builder_last_write_wins_witness :
    applyCalls RetryConf.new
        [BuilderCall.max 3, BuilderCall.storeFile tmpFruentlyLog, BuilderCall.max 7] =
      { max := (lastMax [BuilderCall.max 3, BuilderCall.storeFile tmpFruentlyLog,
          BuilderCall.max 7]).getD 10,
        multiplier := (lastMultiplier [BuilderCall.max 3,
          BuilderCall.storeFile tmpFruentlyLog, BuilderCall.max 7]).getD 5,
        store_file_path := (lastStore [BuilderCall.max 3,
          BuilderCall.storeFile tmpFruentlyLog, BuilderCall.max 7]).or none } ∧
    applyCall (applyCall RetryConf.new (BuilderCall.max 1)) (BuilderCall.multiplier 2) =
      applyCall (applyCall RetryConf.new (BuilderCall.multiplier 2)) (BuilderCall.max 1) :=
  builder_last_write_wins
    [BuilderCall.max 3, BuilderCall.storeFile tmpFruentlyLog, BuilderCall.max 7]
    (BuilderCall.max 1) (BuilderCall.multiplier 2) RetryConf.new (by decide)

lemma lastStore_isSome_iff (l : List BuilderCall) :
    (lastStore l).isSome = true ↔ ∃ p, BuilderCall.storeFile p ∈ l := by
  induction l with
  | nil => simp [lastStore]
  | cons a t ih =>
    rw [lastStore]
    cases h : lastStore t with
    | some q =>
      rw [h] at ih
      simp only [Option.isSome_some, true_iff] at ih
      obtain ⟨p, hp⟩ := ih
      simp only [Option.or, Option.isSome_some, true_iff]
      exact ⟨p, List.mem_cons_of_mem a hp⟩
    | none =>
      rw [h] at ih
      simp only [Option.isSome_none, Bool.false_eq_true, false_iff, not_exists] at ih
      cases a with
      | max m =>
        simp only [Option.or, callStore, Option.isSome_none, Bool.false_eq_true,
          false_iff, not_exists]
        intro p hp
        rcases List.mem_cons.mp hp with hp | hp
        · cases hp
        · exact ih p hp
      | multiplier x =>
        simp only [Option.or, callStore, Option.isSome_none, Bool.false_eq_true,
          false_iff, not_exists]
        intro p hp
        rcases List.mem_cons.mp hp with hp | hp
        · cases hp
        · exact ih p hp
      | storeFile p =>
        simp only [Option.or, callStore, Option.isSome_some, true_iff]
        exact ⟨p, List.mem_cons_self (BuilderCall.storeFile p) t⟩

/-- Claim C6: for every configuration reachable by builder calls from the default,
`need_to_store()` is true if and only if some `store_file` call occurred in
the sequence; it is false otherwise. -/
theorem need_to_store_iff (l : List BuilderCall) :
    (applyCalls RetryConf.new l).need_to_store = true ↔
      ∃ p, BuilderCall.storeFile p ∈ l := by
  have hs : (applyCalls RetryConf.new l).store_file_path = (lastStore l).or none :=
    applyCalls_store l RetryConf.new
  rw [RetryConf.need_to_store, hs, ← lastStore_isSome_iff l]
  cases lastStore l <;> simp [Option.or]

lemma applyCalls_isSome (l : List BuilderCall) :
    ∀ c : RetryConf, c.store_file_path.isSome = true →
      (applyCalls c l).store_file_path.isSome = true := by
  induction l with
  | nil => intro c h; exact h
  | cons a t ih =>
    intro c h
    refine ih (applyCall c a) ?_
    cases a with
    | max m => exact h
    | multiplier x => exact h
    | storeFile p => rfl

/-- Claim C10: once `store_file` has been called, no subsequent builder sequence can
return `store_file_path` to the unset state: `need_to_store()` stays true and
`store_path()` stays `Some` after every further sequence of builder calls. -/
theorem store_never_cleared (c : RetryConf) (p : String) (l : List BuilderCall) :
    (applyCalls (c.store_file p) l).need_to_store = true ∧
    (applyCalls (c.store_file p) l).store_path ≠ none := by
  have h : (applyCalls (c.store_file p) l).store_file_path.isSome = true :=
    applyCalls_isSome l (c.store_file p) rfl
  refine ⟨h, ?_⟩
  rw [RetryConf.store_path]
  intro hc
  rw [hc] at h
  cases h

/-- Modelled from the spec: the backoff interval, in hours, that the retry
scheduler (external to `retry_conf.rs`, not present under `src/`) derives
from the policy: `exp(multiplier + retry_count) / 1000.0 / 60.0 / 60.0`,
exactly the formula documented on `RetryConf`. -/
noncomputable def retryIntervalHours (multiplier : ℝ) (retryCount : ℕ) : ℝ :=
  Real.exp (multiplier + retryCount) / 1000 / 60 / 60

/-- Modelled from the spec: the same backoff interval expressed in seconds
(one hour is 3600 seconds). -/
noncomputable def retryIntervalSeconds (multiplier : ℝ) (retryCount : ℕ) : ℝ :=
  retryIntervalHours multiplier retryCount * 3600

lemma exp_pow_eq (n : ℕ) : Real.exp n = Real.exp 1 ^ n := by
  rw [← Real.exp_nat_mul]
  norm_num

lemma exp15_lb : (3265560 : ℝ) < Real.exp 15 := by
  have h : Real.exp (15 : ℝ) = Real.exp 1 ^ 15 := by
    rw [show ((15 : ℝ)) = ((15 : ℕ) : ℝ) by norm_num, exp_pow_eq]
  rw [h]
  calc (3265560 : ℝ) < 2.7182818283 ^ 15 := by norm_num
    _ < Real.exp 1 ^ 15 := by
        gcongr
        exact Real.exp_one_gt_d9

lemma exp15_ub : Real.exp 15 < 3272760 := by
  have h : Real.exp (15 : ℝ) = Real.exp 1 ^ 15 := by
    rw [show ((15 : ℝ)) = ((15 : ℕ) : ℝ) by norm_num, exp_pow_eq]
  rw [h]
  calc Real.exp 1 ^ 15 < 2.7182818286 ^ 15 := by
        gcongr
        exact Real.exp_one_lt_d9
    _ < 3272760 := by norm_num

lemma exp16_lb : (8882640 : ℝ) < Real.exp 16 := by
  have h : Real.exp (16 : ℝ) = Real.exp 1 ^ 16 := by
    rw [show ((16 : ℝ)) = ((16 : ℕ) : ℝ) by norm_num, exp_pow_eq]
  rw [h]
  calc (8882640 : ℝ) < 2.7182818283 ^ 16 := by norm_num
    _ < Real.exp 1 ^ 16 := by
        gcongr
        exact Real.exp_one_gt_d9

lemma exp16_ub : Real.exp 16 < 8889840 := by
  have h : Real.exp (16 : ℝ) = Real.exp 1 ^ 16 := by
    rw [show ((16 : ℝ)) = ((16 : ℕ) : ℝ) by norm_num, exp_pow_eq]
  rw [h]
  calc Real.exp 1 ^ 16 < 2.7182818286 ^ 16 := by
        gcongr
        exact Real.exp_one_lt_d9
    _ < 8889840 := by norm_num

lemma exp17_lb : (24151320 : ℝ) < Real.exp 17 := by
  have h : Real.exp (17 : ℝ) = Real.exp 1 ^ 17 := by
    rw [show ((17 : ℝ)) = ((17 : ℕ) : ℝ) by norm_num, exp_pow_eq]
  rw [h]
  calc (24151320 : ℝ) < 2.7182818283 ^ 17 := by norm_num
    _ < Real.exp 1 ^ 17 := by
        gcongr
        exact Real.exp_one_gt_d9

lemma exp17_ub : Real.exp 17 < 24158520 := by
  have h : Real.exp (17 : ℝ) = Real.exp 1 ^ 17 := by
    rw [show ((17 : ℝ)) = ((17 : ℕ) : ℝ) by norm_num, exp_pow_eq]
  rw [h]
  calc Real.exp 1 ^ 17 < 2.7182818286 ^ 17 := by
        gcongr
        exact Real.exp_one_lt_d9
    _ < 24158520 := by norm_num

/-- Claim C1: with `multiplier = 5.0` the backoff interval
`exp(multiplier + retry_count) / 1000.0 / 60.0 / 60.0` is within `0.001` of
`0.9081` hours at `retry_count = 10`, of `2.4684` hours at `retry_count = 11`,
and of `6.7097` hours at `retry_count = 12`. -/
theorem backoff_fixed_points :
    |retryIntervalHours 5 10 - 0.9081| < 0.001 ∧
    |retryIntervalHours 5 11 - 2.4684| < 0.001 ∧
    |retryIntervalHours 5 12 - 6.7097| < 0.001 := by
  refine ⟨?_, ?_, ?_⟩
  · have hlb := exp15_lb
    have hub := exp15_ub
    have h : retryIntervalHours 5 10 = Real.exp 15 / 1000 / 60 / 60 := by
      unfold retryIntervalHours
      norm_num
    rw [h, abs_lt]
    constructor <;> nlinarith
  · have hlb := exp16_lb
    have hub := exp16_ub
    have h : retryIntervalHours 5 11 = Real.exp 16 / 1000 / 60 / 60 := by
      unfold retryIntervalHours
      norm_num
    rw [h, abs_lt]
    constructor <;> nlinarith
  · have hlb := exp17_lb
    have hub := exp17_ub
    have h : retryIntervalHours 5 12 = Real.exp 17 / 1000 / 60 / 60 := by
      unfold retryIntervalHours
      norm_num
    rw [h, abs_lt]
    constructor <;> nlinarith

/-- Counterexample to claim C2 as stated: at `multiplier = 5` and
`retry_count = 10` the interval in seconds is `exp 15 / 1000` (about 3269 s,
i.e. 0.908 h), not `exp 15 / 3600` (about 908 s), so the claimed identity
`interval_seconds = exp(multiplier + retry_count) / 3600` fails. -/
theorem seconds_formula_counterexample :
    retryIntervalSeconds 5 10 ≠ Real.exp 15 / 3600 := by
  unfold retryIntervalSeconds retryIntervalHours
  have h : (5 : ℝ) + ((10 : ℕ) : ℝ) = 15 := by norm_num
  rw [h]
  have hp : 0 < Real.exp 15 := Real.exp_pos 15
  intro hc
  nlinarith [hc, hp]

/-- Claim C2 (amended): for every multiplier and every retry count, the
retry interval in seconds is `exp(multiplier + retry_count) / 1000`
(equivalently `exp(multiplier + retry_count) / 1000 / 60 / 60` hours), not
`exp(multiplier + retry_count) / 3600`. -/
theorem retry_interval_seconds_eq (m : ℝ) (n : ℕ) :
    retryIntervalSeconds m n = Real.exp (m + n) / 1000 := by
  unfold retryIntervalSeconds retryIntervalHours
  ring

/-- Claim C3: for every fixed multiplier the backoff interval is strictly
increasing in the retry count: `interval(n + 1) > interval(n)` for all `n`. -/
theorem backoff_strict_mono (m : ℝ) (n : ℕ) :
    retryIntervalHours m (n + 1) > retryIntervalHours m n := by
  unfold retryIntervalHours
  have h : Real.exp (m + (n : ℝ)) < Real.exp (m + ((n : ℝ) + 1)) := by
    apply Real.exp_lt_exp.mpr
    linarith
  push_cast
  linarith [h]
